import Mathlib

/-!
Shallow embedding of the training-orchestrator scheduling core
(src/orchestrator.py, src/scheduler.py, src/api.py) and proofs about it.
Timestamps are modelled as natural-number ticks; the external backend
(submit plus monitor) is modelled as an oracle giving the outcome of each
attempt; the Redis lock and asyncio cancellation points are modelled as
explicit oracle parameters.
-/

/-- JobStatus enum (orchestrator.py lines 48-53). -/
inductive JobStatus
  | pending
  | running
  | completed
  | failed
  | retrying
deriving DecidableEq, Repr

/-- TrainingJob dataclass (orchestrator.py lines 56-69); field defaults mirror
the dataclass defaults. -/
structure TrainingJob where
  job_id : String
  name : String
  image : String
  command : List String
  schedule : String
  max_retries : Nat := 3
  retry_count : Nat := 0
  checkpoint_path : Option String := none
  status : JobStatus := JobStatus.pending
  started_at : Option Nat := none
  completed_at : Option Nat := none
  error_message : Option String := none
deriving DecidableEq, Repr

/-- JobPriority enum (scheduler.py lines 25-29). -/
inductive JobPriority
  | low
  | normal
  | high
  | critical
deriving DecidableEq, Repr

/-- Numeric value of each priority (scheduler.py lines 25-29). -/
def JobPriority.value : JobPriority → Nat
  | JobPriority.low => 1
  | JobPriority.normal => 2
  | JobPriority.high => 3
  | JobPriority.critical => 4

/-- ScheduledJob dataclass (scheduler.py lines 32-41); defaults mirror the
dataclass defaults. -/
structure ScheduledJob where
  job : TrainingJob
  priority : JobPriority := JobPriority.normal
  dependencies : List String := []
  max_concurrent : Nat := 1
  timeout_minutes : Option Nat := none
  tags : List String := []
  enabled : Bool := true
deriving DecidableEq, Repr

/-- A queue entry is the tuple put on the asyncio.PriorityQueue
(scheduler.py line 116): negated priority value, enqueue time, job id. -/
abbrev QueueEntry := Int × Nat × String

/-- Build the tuple enqueued for a fire (scheduler.py lines 115-116):
the priority value is negated so that the min-ordered queue yields the
highest priority first. -/
def mkEntry (p : JobPriority) (t : Nat) (id : String) : QueueEntry :=
  (-(p.value : Int), t, id)

/-- Scheduler state: the mutable attributes of JobScheduler
(scheduler.py lines 47-62) together with the orchestrator job registry
(orchestrator.py line 204). running_jobs is a Python set of job ids, hence a
Finset; trigger_bindings records the job ids for which an APScheduler cron
trigger was installed. -/
structure SchedulerState where
  scheduled_jobs : List (String × ScheduledJob)
  orchestrator_jobs : List (String × TrainingJob)
  running_jobs : Finset String
  job_queue : List QueueEntry
  trigger_bindings : List String
  max_workers : Nat

/-- Entry transition of run_job (orchestrator.py lines 334-335): set status
to running and record the start time. Nothing else is touched. -/
def mark_running (now : Nat) (job : TrainingJob) : TrainingJob :=
  { job with status := JobStatus.running, started_at := some now }

/-- Backoff delay slept before a retry (orchestrator.py line 394). -/
def backoff_delay (rc : Nat) : Nat :=
  min (60 * 2 ^ rc) 3600

/-- Result of one call to run_job: the final job record, the boolean return
value, the list of backoff delays slept (in order), and the trace of every
job state observable after a status transition. -/
structure RunResult where
  job : TrainingJob
  ok : Bool
  delays : List Nat
  trace : List TrainingJob
deriving Repr

/-- run_job (orchestrator.py lines 332-414). The backend oracle gives the
monitoring outcome of each attempt, numbered from the given attempt index.
On success the job is marked completed; on failure the error message is
recorded and, while retry_count is below max_retries, retry_count is
incremented, the job is marked retrying, the backoff delay is slept and the
function recurses; once retry_count has reached max_retries the job is
marked failed. -/
def run_job (backend : Nat → Bool) (attempt : Nat) (now : Nat) (job : TrainingJob) : RunResult :=
  let j1 := mark_running now job
  if backend attempt then
    let jC := { j1 with status := JobStatus.completed, completed_at := some (now + 1) }
    { job := jC, ok := true, delays := [], trace := [j1, jC] }
  else
    let j2 := { j1 with error_message := some "Job failed" }
    if h : job.retry_count < job.max_retries then
      let j3 := { j2 with status := JobStatus.retrying, retry_count := job.retry_count + 1 }
      let d := backoff_delay (job.retry_count + 1)
      let r := run_job backend (attempt + 1) (now + 1 + d) j3
      { job := r.job, ok := r.ok, delays := d :: r.delays, trace := j1 :: j3 :: r.trace }
    else
      let jF := { j2 with status := JobStatus.failed, completed_at := some (now + 1) }
      { job := jF, ok := false, delays := [], trace := [j1, jF] }
termination_by job.max_retries - job.retry_count
decreasing_by simp [mark_running]; omega

/-- Worker handling of asyncio.TimeoutError (scheduler.py lines 193-196):
the job is set to failed with the fixed timeout message; no other field is
touched. -/
def worker_on_timeout (j : TrainingJob) : TrainingJob :=
  { j with status := JobStatus.failed, error_message := some "Job timeout exceeded" }

/-- One worker execution of a dequeued job (scheduler.py lines 181-196).
When the ScheduledJob declares timeout_minutes, asyncio.wait_for may cancel
run_job; timed_out says whether the timeout fired, and cancelled_at is the
job state at the cancellation point in that case. -/
def worker_attempt (sj : ScheduledJob) (timed_out : Bool) (cancelled_at : TrainingJob)
    (backend : Nat → Bool) (now : Nat) : TrainingJob :=
  match sj.timeout_minutes with
  | some _ =>
    if timed_out then worker_on_timeout cancelled_at
    else (run_job backend 0 now sj.job).job
  | none => (run_job backend 0 now sj.job).job

/-- Dependency gate (scheduler.py lines 119-130): every declared dependency
must be registered with the orchestrator and have status completed. -/
def check_dependencies (jobs : List (String × TrainingJob)) (sj : ScheduledJob) : Bool :=
  sj.dependencies.all fun dep =>
    match List.lookup dep jobs with
    | none => false
    | some j => decide (j.status = JobStatus.completed)

/-- Per-job running count (scheduler.py lines 137-140): the number of members
of the running set equal to this job id. -/
def running_count (st : SchedulerState) (job_id : String) : Nat :=
  (st.running_jobs.filter (fun jid => jid = job_id)).card

/-- Concurrency pre-check (scheduler.py lines 132-149): false when the
per-job count has reached max_concurrent, or when the running set has
max_workers members. -/
def check_concurrency (st : SchedulerState) (sj : ScheduledJob) : Bool :=
  if sj.max_concurrent ≤ running_count st sj.job.job_id then false
  else if st.max_workers ≤ st.running_jobs.card then false
  else true

/-- Trigger fire handler _schedule_job (scheduler.py lines 98-117): unknown
job ids and unmet dependencies drop the fire; the concurrency check is then
evaluated but its result only produces a log line, and the entry is put on
the queue unconditionally. -/
def schedule_job (st : SchedulerState) (job_id : String) (now : Nat) : SchedulerState :=
  match List.lookup job_id st.scheduled_jobs with
  | none => st
  | some sj =>
    if check_dependencies st.orchestrator_jobs sj = false then st
    else
      { st with job_queue := st.job_queue ++ [mkEntry sj.priority now job_id] }

/-- Manual trigger trigger_job_now (scheduler.py lines 268-280): unknown ids
raise ValueError; otherwise the entry is enqueued at critical priority with
no dependency or concurrency check. -/
def trigger_job_now (st : SchedulerState) (job_id : String) (now : Nat) : Option SchedulerState :=
  match List.lookup job_id st.scheduled_jobs with
  | none => none
  | some _ =>
    some { st with job_queue := st.job_queue ++ [mkEntry JobPriority.critical now job_id] }

/-- add_scheduled_job (scheduler.py lines 64-89). Disabled jobs are skipped.
Otherwise the job is stored in scheduled_jobs and registered with the
orchestrator before the cron expression is parsed; parse_ok models whether
CronTrigger.from_crontab accepts the schedule string. On parse failure the
exception is caught and logged, so the state keeps the registration and only
the trigger binding is missing. -/
def add_scheduled_job (parse_ok : String → Bool) (st : SchedulerState) (sj : ScheduledJob) :
    SchedulerState :=
  if sj.enabled = false then st
  else
    let st1 := { st with
      scheduled_jobs := (sj.job.job_id, sj) :: st.scheduled_jobs
      orchestrator_jobs := (sj.job.job_id, sj.job) :: st.orchestrator_jobs }
    if parse_ok sj.job.schedule then
      { st1 with trigger_bindings := sj.job.job_id :: st1.trigger_bindings }
    else
      st1

/-- Database row for a job as used by the REST layer (models.py /
api.py): status is the string stored in the status column. -/
structure DbJob where
  job_id : String
  name : String
  image : String
  command : List String
  schedule : String
  max_retries : Nat
  retry_count : Nat
  checkpoint_path : Option String
  status : String
  started_at : Option Nat
  completed_at : Option Nat
  error_message : Option String
deriving DecidableEq, Repr

/-- Manual retry endpoint retry_job (api.py lines 251-284) on a found row:
statuses other than failed and completed are rejected with 409; otherwise
status is reset to pending and error_message, started_at and completed_at
are cleared. retry_count is not touched. -/
def retry_job (job : DbJob) : Except (Nat × String) DbJob :=
  if decide (job.status = "failed") || decide (job.status = "completed") then
    Except.ok { job with
      status := "pending"
      error_message := none
      started_at := none
      completed_at := none }
  else
    Except.error (409, "Can only retry failed or completed jobs")

/-! Concrete fixtures used by counterexamples and witnesses. -/

/-- Backend oracle under which every attempt fails. -/
def alwaysFail : Nat → Bool := fun _ => false

/-- A cron parser model that rejects every schedule string. -/
def badCron : String → Bool := fun _ => false

/-- A representative freshly registered job (defaults of the dataclass). -/
def baseJob : TrainingJob :=
  { job_id := "train-001"
    name := "resnet50-training"
    image := "trainer:latest"
    command := ["python", "train.py"]
    schedule := "0 2 * * *" }

/-- A second registered job, used as the downstream end of a dependency. -/
def depJob : TrainingJob :=
  { job_id := "train-003"
    name := "model-evaluation"
    image := "evaluator:latest"
    command := ["python", "evaluate.py"]
    schedule := "0 4 * * *" }

/-- ScheduledJob wrapper of baseJob with scheduling defaults. -/
def sjPlain : ScheduledJob := { job := baseJob }

/-- ScheduledJob wrapper with a declared 30 minute timeout. -/
def sjTimeout : ScheduledJob := { job := baseJob, timeout_minutes := some 30 }

/-- ScheduledJob wrapper with a per-job concurrency cap of 2. -/
def sjWide : ScheduledJob := { job := baseJob, max_concurrent := 2 }

/-- ScheduledJob for depJob declaring a dependency on baseJob. -/
def sjDep : ScheduledJob := { job := depJob, dependencies := ["train-001"] }

/-- ScheduledJob whose cron expression is malformed. -/
def sjBad : ScheduledJob :=
  { job := { baseJob with job_id := "train-bad", schedule := "not a cron" } }

/-- An empty scheduler state with the default five workers. -/
def st0 : SchedulerState :=
  { scheduled_jobs := []
    orchestrator_jobs := []
    running_jobs := ∅
    job_queue := []
    trigger_bindings := []
    max_workers := 5 }

/-- State in which the running set already holds max_workers members. -/
def stFull : SchedulerState :=
  { scheduled_jobs := [("train-001", sjPlain)]
    orchestrator_jobs := [("train-001", baseJob)]
    running_jobs := {"other-job"}
    job_queue := []
    trigger_bindings := ["train-001"]
    max_workers := 1 }

/-- State in which sjDep is registered but its dependency is still pending. -/
def stDep : SchedulerState :=
  { scheduled_jobs := [("train-003", sjDep)]
    orchestrator_jobs := [("train-003", depJob), ("train-001", baseJob)]
    running_jobs := ∅
    job_queue := []
    trigger_bindings := ["train-003"]
    max_workers := 5 }

/-- State used for the per-job concurrency count: the running set holds the
job itself and one other id. -/
def stRun : SchedulerState :=
  { scheduled_jobs := [("train-001", sjWide)]
    orchestrator_jobs := [("train-001", baseJob)]
    running_jobs := {"train-001", "other-job"}
    job_queue := []
    trigger_bindings := ["train-001"]
    max_workers := 5 }

/-- A job carrying the error message of an earlier failed attempt. -/
def jobPrevErr : TrainingJob :=
  { baseJob with error_message := some "previous attempt failed", retry_count := 1 }

/-- A failed database row with two consumed retries. -/
def dbJobFailed : DbJob :=
  { job_id := "train-002"
    name := "bert-finetuning"
    image := "nlp-trainer:latest"
    command := ["python", "finetune.py"]
    schedule := "0 3 * * *"
    max_retries := 3
    retry_count := 2
    checkpoint_path := none
    status := "failed"
    started_at := some 10
    completed_at := some 20
    error_message := some "Job failed" }


/-- Job record after a successful attempt started at time n
(orchestrator.py lines 356-357). -/
def complete_job (n : Nat) (job : TrainingJob) : TrainingJob :=
  { mark_running n job with status := JobStatus.completed, completed_at := some (n + 1) }

/-- Job record just before the backoff sleep of a retried attempt
(orchestrator.py lines 379-384): error recorded, retry_count incremented,
status retrying. -/
def retry_step_job (n : Nat) (job : TrainingJob) : TrainingJob :=
  { mark_running n job with
    status := JobStatus.retrying
    retry_count := job.retry_count + 1
    error_message := some "Job failed" }

/-- Job record after the retry budget is exhausted
(orchestrator.py lines 396-398). -/
def fail_job (n : Nat) (job : TrainingJob) : TrainingJob :=
  { mark_running n job with
    status := JobStatus.failed
    completed_at := some (n + 1)
    error_message := some "Job failed" }

/-- Order in which the asyncio.PriorityQueue yields entries: Python tuple
comparison on (negated priority value, enqueue time, job id), so smaller
negated priority first, then earlier enqueue time, then lexically smaller
job id. -/
def entryLEP (a b : QueueEntry) : Prop :=
  a.1 < b.1 ∨ (a.1 = b.1 ∧ (a.2.1 < b.2.1 ∨ (a.2.1 = b.2.1 ∧ a.2.2 ≤ b.2.2)))

instance (a b : QueueEntry) : Decidable (entryLEP a b) := by
  unfold entryLEP
  infer_instance

/-- Extract a minimal entry: models one get() from the asyncio.PriorityQueue,
which always yields a smallest tuple of the current contents
(scheduler.py line 158). -/
def pop_min : List QueueEntry → Option (QueueEntry × List QueueEntry)
  | [] => none
  | x :: xs =>
    match pop_min xs with
    | none => some (x, xs)
    | some (m, rest) => if entryLEP x m then some (x, xs) else some (m, x :: rest)

/-- Repeatedly pop the minimum, with explicit fuel (the initial length
suffices): the sequence of entries successive get() calls return when the
queue is drained with no concurrent enqueue. -/
def drainFuel : Nat → List QueueEntry → List QueueEntry
  | 0, _ => []
  | fuel + 1, l =>
    match pop_min l with
    | none => []
    | some (m, rest) => m :: drainFuel fuel rest

/-- The dequeue sequence of a queue holding the given entries. -/
def drain (l : List QueueEntry) : List QueueEntry :=
  drainFuel l.length l

/-! Claims about the scheduler fire handler, manual operations and worker. -/

/-- C1: amended. When the fire handler finds the job and its dependencies are
met, the entry is added to the priority dispatch queue even when the
concurrency pre-check fails; the check result is only logged
(scheduler.py lines 110-116 have no early return). -/
theorem fire_enqueued_despite_concurrency (st : SchedulerState) (job_id : String)
    (now : Nat) (sj : ScheduledJob)
    (hfound : List.lookup job_id st.scheduled_jobs = some sj)
    (hdeps : check_dependencies st.orchestrator_jobs sj = true)
    (_hconc : check_concurrency st sj = false) :
    (schedule_job st job_id now).job_queue = st.job_queue ++ [mkEntry sj.priority now job_id] := by
  simp [schedule_job, hfound, hdeps]

/-- C1 witness: at stFull the running set already has max_workers members,
the concurrency check fails, and the fire is enqueued anyway. -/
theorem fire_enqueued_despite_concurrency_witness :
    (schedule_job stFull "train-001" 7).job_queue =
      stFull.job_queue ++ [mkEntry sjPlain.priority 7 "train-001"] :=
  fire_enqueued_despite_concurrency stFull "train-001" 7 sjPlain (by decide) (by decide)
    (by decide)

/-- C1 counterexample: the concurrency pre-check fails at stFull (the running
set already has max_workers = 1 members), yet the fire handler still appends
the entry for the fire to the dispatch queue, so the fire is not dropped. -/
theorem fire_drop_counterexample :
    check_concurrency stFull sjPlain = false ∧
    List.lookup "train-001" stFull.scheduled_jobs = some sjPlain ∧
    (schedule_job stFull "train-001" 7).job_queue = [mkEntry JobPriority.normal 7 "train-001"] := by
  decide

/-- C2: amended. When the ScheduledJob declares a timeout and the attempt
times out, the worker sets the job directly to failed with error message
Job timeout exceeded, leaving retry_count untouched, whatever the remaining
retry budget: the timeout is not treated as a retryable backend failure. -/
theorem timeout_marks_failed_directly (sj : ScheduledJob) (c : TrainingJob)
    (b : Nat → Bool) (n : Nat) (ht : sj.timeout_minutes ≠ none) :
    worker_attempt sj true c b n =
      { c with status := JobStatus.failed, error_message := some "Job timeout exceeded" }
    ∧ (worker_attempt sj true c b n).retry_count = c.retry_count := by
  cases hm : sj.timeout_minutes with
  | none => exact absurd hm ht
  | some m => simp [worker_attempt, hm, worker_on_timeout]

/-- C2 witness: a timed out attempt of baseJob under a declared timeout. -/
theorem timeout_marks_failed_directly_witness :
    worker_attempt sjTimeout true (mark_running 0 baseJob) alwaysFail 0 =
      { mark_running 0 baseJob with
        status := JobStatus.failed
        error_message := some "Job timeout exceeded" }
    ∧ (worker_attempt sjTimeout true (mark_running 0 baseJob) alwaysFail 0).retry_count =
      (mark_running 0 baseJob).retry_count :=
  timeout_marks_failed_directly sjTimeout (mark_running 0 baseJob) alwaysFail 0 (by decide)

/-- C2 counterexample: baseJob still has its whole retry budget
(retry_count 0 of max_retries 3), yet a timed out attempt does not move it
to retrying, does not consume a retry, and the error message is Job timeout
exceeded rather than attempt timeout exceeded. -/
theorem timeout_retry_counterexample :
    baseJob.retry_count < baseJob.max_retries ∧
    sjTimeout.timeout_minutes ≠ none ∧
    (worker_attempt sjTimeout true (mark_running 0 baseJob) alwaysFail 0).status ≠
      JobStatus.retrying ∧
    (worker_attempt sjTimeout true (mark_running 0 baseJob) alwaysFail 0).retry_count =
      baseJob.retry_count ∧
    (worker_attempt sjTimeout true (mark_running 0 baseJob) alwaysFail 0).error_message ≠
      some "attempt timeout exceeded" := by
  decide

/-- C3: amended. Manual retry on a found row succeeds exactly from the failed
and completed statuses, resetting status to pending and clearing
error_message and both timestamps, but it leaves retry_count unchanged;
from any other status it is rejected with a 409 conflict and the row is
unchanged (the handler returns before any mutation). -/
theorem retry_job_keeps_retry_count (job : DbJob) :
    (job.status = "failed" ∨ job.status = "completed" →
      retry_job job = Except.ok { job with
        status := "pending"
        error_message := none
        started_at := none
        completed_at := none })
    ∧ (¬(job.status = "failed" ∨ job.status = "completed") →
      retry_job job = Except.error (409, "Can only retry failed or completed jobs")) := by
  constructor
  · intro h
    rcases h with h | h <;> simp [retry_job, h]
  · intro h
    rcases not_or.mp h with ⟨h1, h2⟩
    simp [retry_job, h1, h2]

/-- C3 witness: manual retry of the failed row dbJobFailed. -/
theorem retry_job_keeps_retry_count_witness :
    retry_job dbJobFailed = Except.ok { dbJobFailed with
      status := "pending"
      error_message := none
      started_at := none
      completed_at := none } :=
  (retry_job_keeps_retry_count dbJobFailed).1 (Or.inl rfl)

/-- C3 counterexample: dbJobFailed has status failed and retry_count 2;
manual retry succeeds but the resulting row still has retry_count 2, not 0. -/
theorem retry_job_reset_counterexample :
    dbJobFailed.status = "failed" ∧
    dbJobFailed.retry_count = 2 ∧
    (retry_job dbJobFailed).toOption.map DbJob.retry_count = some 2 ∧
    (retry_job dbJobFailed).toOption.map DbJob.retry_count ≠ some 0 := by
  decide

/-- C4: amended. A manual run-now request performs no dependency gate and no
concurrency check at all: for every registered job it enqueues an entry at
critical priority unconditionally, and it fails only when the job id is not
registered. -/
theorem trigger_now_skips_gates (st : SchedulerState) (job_id : String) (now : Nat) :
    (∀ sj, List.lookup job_id st.scheduled_jobs = some sj →
      trigger_job_now st job_id now =
        some { st with job_queue := st.job_queue ++ [mkEntry JobPriority.critical now job_id] })
    ∧ (List.lookup job_id st.scheduled_jobs = none → trigger_job_now st job_id now = none) := by
  constructor
  · intro sj h
    simp [trigger_job_now, h]
  · intro h
    simp [trigger_job_now, h]

/-- C4 witness: run-now on the registered job train-003 in stDep. -/
theorem trigger_now_skips_gates_witness :
    trigger_job_now stDep "train-003" 3 =
      some { stDep with job_queue := stDep.job_queue ++ [mkEntry JobPriority.critical 3 "train-003"] } :=
  (trigger_now_skips_gates stDep "train-003" 3).1 sjDep (by decide)

/-- C4 counterexample: in stDep the dependency of train-003 is still pending,
so the dependency gate reports false, yet run-now still enqueues the job at
critical priority instead of dropping the request. -/
theorem trigger_now_gate_counterexample :
    check_dependencies stDep.orchestrator_jobs sjDep = false ∧
    (trigger_job_now stDep "train-003" 3).map SchedulerState.job_queue =
      some [mkEntry JobPriority.critical 3 "train-003"] := by
  decide

/-- C5: amended. Registration of an enabled job stores it in scheduled_jobs
and registers it with the orchestrator before the cron expression is parsed;
a malformed schedule is caught and only logged, so no error propagates, the
job stays registered in the active set, and only the trigger binding is not
installed. -/
theorem add_job_retains_on_bad_cron (pf : String → Bool) (st : SchedulerState)
    (sj : ScheduledJob) (hen : sj.enabled = true) (hbad : pf sj.job.schedule = false) :
    List.lookup sj.job.job_id (add_scheduled_job pf st sj).scheduled_jobs = some sj
    ∧ List.lookup sj.job.job_id (add_scheduled_job pf st sj).orchestrator_jobs = some sj.job
    ∧ (add_scheduled_job pf st sj).trigger_bindings = st.trigger_bindings := by
  simp [add_scheduled_job, hen, hbad, List.lookup]

/-- C5 witness: registering sjBad, whose schedule badCron rejects. -/
theorem add_job_retains_on_bad_cron_witness :
    List.lookup sjBad.job.job_id (add_scheduled_job badCron st0 sjBad).scheduled_jobs = some sjBad
    ∧ List.lookup sjBad.job.job_id (add_scheduled_job badCron st0 sjBad).orchestrator_jobs =
      some sjBad.job
    ∧ (add_scheduled_job badCron st0 sjBad).trigger_bindings = st0.trigger_bindings :=
  add_job_retains_on_bad_cron badCron st0 sjBad (by decide) (by decide)

/-- C5 counterexample: sjBad is enabled and its schedule is rejected by the
parser, yet after registration it is retained in the active set of scheduled
jobs, so registration did not fail and the job was not discarded. -/
theorem add_job_reject_counterexample :
    sjBad.enabled = true ∧
    badCron sjBad.job.schedule = false ∧
    List.lookup "train-bad" (add_scheduled_job badCron st0 sjBad).scheduled_jobs = some sjBad := by
  decide

/-- C9: amended. The dispatch transition into running sets started_at and the
running status but does not clear error_message: the job enters running
still carrying the error message of the previous attempt. -/
theorem mark_running_keeps_error_message (now : Nat) (job : TrainingJob) :
    (mark_running now job).status = JobStatus.running
    ∧ (mark_running now job).started_at = some now
    ∧ (mark_running now job).error_message = job.error_message := by
  simp [mark_running]

/-- C9 counterexample: jobPrevErr carries the error message of an earlier
attempt; after the dispatch transition into running the message is still
there, so a job entering running is not free of a previous error message. -/
theorem mark_running_error_counterexample :
    jobPrevErr.error_message = some "previous attempt failed" ∧
    (mark_running 5 jobPrevErr).status = JobStatus.running ∧
    (mark_running 5 jobPrevErr).error_message ≠ none := by
  decide

/-- C10: confirmed. The running set is a set of job ids, so the per-job
running count computed by the concurrency check is at most one; hence for a
job with max_concurrent at least two the per-job branch never reports the
cap as reached, and the check reduces to the global worker-limit branch. -/
theorem per_job_running_count_le_one (st : SchedulerState) (sj : ScheduledJob)
    (h : 2 ≤ sj.max_concurrent) :
    running_count st sj.job.job_id ≤ 1
    ∧ running_count st sj.job.job_id < sj.max_concurrent
    ∧ check_concurrency st sj = decide (st.running_jobs.card < st.max_workers) := by
  have h1 : running_count st sj.job.job_id ≤ 1 := by
    unfold running_count
    calc (st.running_jobs.filter (fun jid => jid = sj.job.job_id)).card
        ≤ ({sj.job.job_id} : Finset String).card := by
          apply Finset.card_le_card
          intro x hx
          simp only [Finset.mem_filter] at hx
          simp [hx.2]
      _ = 1 := Finset.card_singleton _
  refine ⟨h1, by omega, ?_⟩
  unfold check_concurrency
  rw [if_neg (by omega)]
  by_cases hc : st.max_workers ≤ st.running_jobs.card
  · simp [hc, Nat.not_lt.mpr hc]
  · simp [hc, Nat.lt_of_not_le hc]

/-- C10 witness: in stRun the job itself is in the running set, the count is
one, below its max_concurrent of two, and the check equals the global
branch. -/
theorem per_job_running_count_le_one_witness :
    running_count stRun sjWide.job.job_id ≤ 1
    ∧ running_count stRun sjWide.job.job_id < sjWide.max_concurrent
    ∧ check_concurrency stRun sjWide = decide (stRun.running_jobs.card < stRun.max_workers) :=
  per_job_running_count_le_one stRun sjWide (by decide)

/-- Step equation of run_job for a successful attempt. -/
theorem run_job_succ_eq (b : Nat → Bool) (a n : Nat) (job : TrainingJob) (hb : b a = true) :
    run_job b a n job =
      { job := complete_job n job
        ok := true
        delays := []
        trace := [mark_running n job, complete_job n job] } := by
  rw [run_job]
  rw [if_pos hb]
  rfl

/-- Step equation of run_job for a failed attempt with remaining budget. -/
theorem run_job_retry_eq (b : Nat → Bool) (a n : Nat) (job : TrainingJob)
    (hb : b a = false) (hlt : job.retry_count < job.max_retries) :
    run_job b a n job =
      { job := (run_job b (a + 1) (n + 1 + backoff_delay (job.retry_count + 1))
          (retry_step_job n job)).job
        ok := (run_job b (a + 1) (n + 1 + backoff_delay (job.retry_count + 1))
          (retry_step_job n job)).ok
        delays := backoff_delay (job.retry_count + 1) ::
          (run_job b (a + 1) (n + 1 + backoff_delay (job.retry_count + 1))
            (retry_step_job n job)).delays
        trace := mark_running n job :: retry_step_job n job ::
          (run_job b (a + 1) (n + 1 + backoff_delay (job.retry_count + 1))
            (retry_step_job n job)).trace } := by
  rw [run_job]
  rw [if_neg (by simp [hb]), dif_pos hlt]
  rfl

/-- Step equation of run_job for a failed attempt with exhausted budget. -/
theorem run_job_fail_eq (b : Nat → Bool) (a n : Nat) (job : TrainingJob)
    (hb : b a = false) (hge : ¬ job.retry_count < job.max_retries) :
    run_job b a n job =
      { job := fail_job n job
        ok := false
        delays := []
        trace := [mark_running n job, fail_job n job] } := by
  rw [run_job]
  rw [if_neg (by simp [hb]), dif_neg hge]
  rfl

theorem run_job_mr (b : Nat → Bool) (a n : Nat) (job : TrainingJob) :
    (run_job b a n job).job.max_retries = job.max_retries := by
  refine run_job.induct b
    (fun a n job => (run_job b a n job).job.max_retries = job.max_retries) ?_ ?_ ?_ a n job
  · intro a n job hb
    rw [run_job_succ_eq b a n job hb]
    simp [complete_job, mark_running]
  · intro a n job j1 hb j2 hlt j3 d ih
    simp only [Bool.not_eq_true] at hb
    rw [run_job_retry_eq b a n job hb hlt]
    simpa [retry_step_job, mark_running, j3, j2, j1, d] using ih
  · intro a n job hb hlt
    rw [run_job_fail_eq b a n job (by simpa using hb) hlt]
    simp [fail_job, mark_running]

theorem run_job_rc_le (b : Nat → Bool) (a n : Nat) (job : TrainingJob)
    (h : job.retry_count ≤ job.max_retries) :
    (run_job b a n job).job.retry_count ≤ (run_job b a n job).job.max_retries := by
  refine run_job.induct b
    (fun a n job => job.retry_count ≤ job.max_retries →
      (run_job b a n job).job.retry_count ≤ (run_job b a n job).job.max_retries) ?_ ?_ ?_ a n job h
  · intro a n job hb hle
    rw [run_job_succ_eq b a n job hb]
    simpa [complete_job, mark_running] using hle
  · intro a n job j1 hb j2 hlt j3 d ih hle
    simp only [Bool.not_eq_true] at hb
    rw [run_job_retry_eq b a n job hb hlt]
    have hstep : (retry_step_job n job).retry_count ≤ (retry_step_job n job).max_retries := by
      simp [retry_step_job, mark_running]
      omega
    have := ih (by simpa [retry_step_job, mark_running, j3, j2, j1] using hstep)
    simpa [retry_step_job, mark_running, j3, j2, j1, d] using this
  · intro a n job hb hlt hle
    rw [run_job_fail_eq b a n job (by simpa using hb) hlt]
    simpa [fail_job, mark_running] using hle

theorem run_job_trace_le (b : Nat → Bool) (a n : Nat) (job : TrainingJob)
    (h : job.retry_count ≤ job.max_retries) :
    ∀ j ∈ (run_job b a n job).trace, j.retry_count ≤ j.max_retries := by
  refine run_job.induct b
    (fun a n job => job.retry_count ≤ job.max_retries →
      ∀ j ∈ (run_job b a n job).trace, j.retry_count ≤ j.max_retries) ?_ ?_ ?_ a n job h
  · intro a n job hb hle
    rw [run_job_succ_eq b a n job hb]
    intro j hj
    rcases List.mem_cons.mp hj with rfl | hj
    · simpa [mark_running] using hle
    rcases List.mem_cons.mp hj with rfl | hj
    · simpa [complete_job, mark_running] using hle
    · simp at hj
  · intro a n job j1 hb j2 hlt j3 d ih hle
    simp only [Bool.not_eq_true] at hb
    rw [run_job_retry_eq b a n job hb hlt]
    intro j hj
    rcases List.mem_cons.mp hj with rfl | hj
    · simpa [mark_running] using hle
    rcases List.mem_cons.mp hj with rfl | hj
    · simp [retry_step_job, mark_running]
      omega
    · have hstep : (retry_step_job n job).retry_count ≤ (retry_step_job n job).max_retries := by
        simp [retry_step_job, mark_running]
        omega
      exact ih (by simpa [retry_step_job, mark_running, j3, j2, j1] using hstep) j
        (by simpa [retry_step_job, mark_running, j3, j2, j1, d] using hj)
  · intro a n job hb hlt hle
    rw [run_job_fail_eq b a n job (by simpa using hb) hlt]
    intro j hj
    rcases List.mem_cons.mp hj with rfl | hj
    · simpa [mark_running] using hle
    rcases List.mem_cons.mp hj with rfl | hj
    · simpa [fail_job, mark_running] using hle
    · simp at hj

theorem run_job_fail_exhausted (b : Nat → Bool) (a n : Nat) (job : TrainingJob)
    (h : job.retry_count ≤ job.max_retries) :
    (run_job b a n job).ok = false →
      (run_job b a n job).job.status = JobStatus.failed
      ∧ (run_job b a n job).job.retry_count = (run_job b a n job).job.max_retries := by
  refine run_job.induct b
    (fun a n job => job.retry_count ≤ job.max_retries → (run_job b a n job).ok = false →
      (run_job b a n job).job.status = JobStatus.failed
      ∧ (run_job b a n job).job.retry_count = (run_job b a n job).job.max_retries)
    ?_ ?_ ?_ a n job h
  · intro a n job hb hle hok
    rw [run_job_succ_eq b a n job hb] at hok
    simp at hok
  · intro a n job j1 hb j2 hlt j3 d ih hle hok
    simp only [Bool.not_eq_true] at hb
    rw [run_job_retry_eq b a n job hb hlt] at hok ⊢
    have hstep : (retry_step_job n job).retry_count ≤ (retry_step_job n job).max_retries := by
      simp [retry_step_job, mark_running]
      omega
    have := ih (by simpa [retry_step_job, mark_running, j3, j2, j1] using hstep)
      (by simpa [retry_step_job, mark_running, j3, j2, j1, d] using hok)
    simpa [retry_step_job, mark_running, j3, j2, j1, d] using this
  · intro a n job hb hlt hle hok
    rw [run_job_fail_eq b a n job (by simpa using hb) hlt]
    simp [fail_job, mark_running]
    omega

theorem run_job_delays_shape (b : Nat → Bool) (a n : Nat) (job : TrainingJob) :
    ∃ k, (run_job b a n job).delays =
      (List.range k).map (fun i => backoff_delay (job.retry_count + 1 + i)) := by
  refine run_job.induct b
    (fun a n job => ∃ k, (run_job b a n job).delays =
      (List.range k).map (fun i => backoff_delay (job.retry_count + 1 + i))) ?_ ?_ ?_ a n job
  · intro a n job hb
    exact ⟨0, by rw [run_job_succ_eq b a n job hb]; simp⟩
  · intro a n job j1 hb j2 hlt j3 d ih
    simp only [Bool.not_eq_true] at hb
    obtain ⟨k, hk⟩ := ih
    refine ⟨k + 1, ?_⟩
    rw [run_job_retry_eq b a n job hb hlt]
    have hk2 : (run_job b (a + 1) (n + 1 + backoff_delay (job.retry_count + 1))
        (retry_step_job n job)).delays =
        List.map (fun i => backoff_delay (job.retry_count + 1 + 1 + i)) (List.range k) := by
      simpa [retry_step_job, mark_running, j3, j2, j1, d] using hk
    rw [List.range_succ_eq_map, List.map_cons, List.map_map]
    dsimp only
    rw [hk2]
    congr 1
    refine List.map_congr_left fun i _ => ?_
    simp only [Function.comp_apply]
    congr 1
    omega
  · intro a n job hb hlt
    exact ⟨0, by rw [run_job_fail_eq b a n job (by simpa using hb) hlt]; simp⟩

theorem run_job_delays_alwaysFail (a n : Nat) (job : TrainingJob) :
    (run_job alwaysFail a n job).delays =
      (List.range (job.max_retries - job.retry_count)).map
        (fun i => backoff_delay (job.retry_count + 1 + i)) := by
  refine run_job.induct alwaysFail
    (fun a n job => (run_job alwaysFail a n job).delays =
      (List.range (job.max_retries - job.retry_count)).map
        (fun i => backoff_delay (job.retry_count + 1 + i))) ?_ ?_ ?_ a n job
  · intro a n job hb
    simp [alwaysFail] at hb
  · intro a n job j1 hb j2 hlt j3 d ih
    simp only [Bool.not_eq_true] at hb
    rw [run_job_retry_eq alwaysFail a n job hb hlt]
    have hk2 : (run_job alwaysFail (a + 1) (n + 1 + backoff_delay (job.retry_count + 1))
        (retry_step_job n job)).delays =
        List.map (fun i => backoff_delay (job.retry_count + 1 + 1 + i))
          (List.range (job.max_retries - (job.retry_count + 1))) := by
      simpa [retry_step_job, mark_running, j3, j2, j1, d] using ih
    have hr : job.max_retries - job.retry_count =
        (job.max_retries - (job.retry_count + 1)) + 1 := by omega
    rw [hr, List.range_succ_eq_map, List.map_cons, List.map_map]
    dsimp only
    rw [hk2]
    congr 1
    refine List.map_congr_left fun i _ => ?_
    simp only [Function.comp_apply]
    congr 1
    omega
  · intro a n job hb hlt
    rw [run_job_fail_eq alwaysFail a n job (by simpa using hb) hlt]
    have : job.max_retries - job.retry_count = 0 := by omega
    simp [this]

/-- C7: confirmed. Starting from any job with retry_count at most max_retries,
every state observable along the run and retry loop keeps retry_count within
the budget: retry_count is incremented only under the guard
retry_count below max_retries, and when the budget is exhausted the job
moves to the terminal failed state with retry_count equal to max_retries. -/
theorem retry_budget_invariant (b : Nat → Bool) (a n : Nat) (job : TrainingJob)
    (h : job.retry_count ≤ job.max_retries) :
    (∀ j ∈ (run_job b a n job).trace, j.retry_count ≤ j.max_retries)
    ∧ (run_job b a n job).job.retry_count ≤ (run_job b a n job).job.max_retries
    ∧ ((run_job b a n job).ok = false →
        (run_job b a n job).job.status = JobStatus.failed
        ∧ (run_job b a n job).job.retry_count = (run_job b a n job).job.max_retries) :=
  ⟨run_job_trace_le b a n job h, run_job_rc_le b a n job h, run_job_fail_exhausted b a n job h⟩

/-- C7 witness: running baseJob against an always failing backend. -/
theorem retry_budget_invariant_witness :
    (run_job alwaysFail 0 0 baseJob).job.retry_count ≤
      (run_job alwaysFail 0 0 baseJob).job.max_retries :=
  (retry_budget_invariant alwaysFail 0 0 baseJob (by decide)).2.1

/-- C6: confirmed. The backoff delay slept before each retry is
min (60 * 2 ^ retry_count) 3600 where retry_count is the value after the
increment for that attempt: the successive delays of any run are an initial
segment of that sequence, a job with full budget of three retries failing
repeatedly sleeps exactly 120, 240 and 480 seconds, and every delay is at
most 3600 seconds. -/
theorem backoff_policy :
    (∀ rc, backoff_delay rc = min (60 * 2 ^ rc) 3600)
    ∧ (∀ b a n (job : TrainingJob), ∃ k, (run_job b a n job).delays =
        (List.range k).map (fun i => backoff_delay (job.retry_count + 1 + i)))
    ∧ (run_job alwaysFail 0 0 baseJob).delays = [120, 240, 480]
    ∧ (∀ b a n (job : TrainingJob) d, d ∈ (run_job b a n job).delays → d ≤ 3600) := by
  refine ⟨fun rc => rfl, run_job_delays_shape, ?_, ?_⟩
  · rw [run_job_delays_alwaysFail]
    decide
  · intro b a n job d hd
    obtain ⟨k, hk⟩ := run_job_delays_shape b a n job
    rw [hk] at hd
    simp only [List.mem_map] at hd
    obtain ⟨i, _, rfl⟩ := hd
    simp [backoff_delay]

/-- C6 witness: the concrete delay sequence of baseJob under an always
failing backend. -/
theorem backoff_policy_witness :
    (run_job alwaysFail 0 0 baseJob).delays = [120, 240, 480] :=
  backoff_policy.2.2.1

theorem entryLEP_trans {a b c : QueueEntry} (h1 : entryLEP a b) (h2 : entryLEP b c) :
    entryLEP a c := by
  unfold entryLEP at h1 h2 ⊢
  rcases h1 with h1 | ⟨e1, h1⟩
  · rcases h2 with h2 | ⟨e2, _⟩
    · exact Or.inl (lt_trans h1 h2)
    · exact Or.inl (e2 ▸ h1)
  · rcases h2 with h2 | ⟨e2, h2⟩
    · exact Or.inl (e1 ▸ h2)
    · refine Or.inr ⟨e1.trans e2, ?_⟩
      rcases h1 with h1 | ⟨f1, h1⟩
      · rcases h2 with h2 | ⟨f2, _⟩
        · exact Or.inl (lt_trans h1 h2)
        · exact Or.inl (f2 ▸ h1)
      · rcases h2 with h2 | ⟨f2, h2⟩
        · exact Or.inl (f1 ▸ h2)
        · exact Or.inr ⟨f1.trans f2, le_trans h1 h2⟩

theorem entryLEP_total (a b : QueueEntry) : entryLEP a b ∨ entryLEP b a := by
  unfold entryLEP
  rcases lt_trichotomy a.1 b.1 with h | h | h
  · exact Or.inl (Or.inl h)
  · rcases lt_trichotomy a.2.1 b.2.1 with h2 | h2 | h2
    · exact Or.inl (Or.inr ⟨h, Or.inl h2⟩)
    · rcases le_total a.2.2 b.2.2 with h3 | h3
      · exact Or.inl (Or.inr ⟨h, Or.inr ⟨h2, h3⟩⟩)
      · exact Or.inr (Or.inr ⟨h.symm, Or.inr ⟨h2.symm, h3⟩⟩)
    · exact Or.inr (Or.inr ⟨h.symm, Or.inl h2⟩)
  · exact Or.inr (Or.inl h)

theorem pop_min_eq_none {l : List QueueEntry} (h : pop_min l = none) : l = [] := by
  cases l with
  | nil => rfl
  | cons x xs =>
    rw [pop_min] at h
    rcases h2 : pop_min xs with _ | ⟨m, rest⟩ <;> rw [h2] at h
    · simp at h
    · by_cases hle : entryLEP x m <;> simp [hle] at h

theorem pop_min_perm {l : List QueueEntry} {m : QueueEntry} {rest : List QueueEntry}
    (h : pop_min l = some (m, rest)) : l.Perm (m :: rest) := by
  induction l generalizing m rest with
  | nil => simp [pop_min] at h
  | cons x xs ih =>
    rw [pop_min] at h
    rcases h2 : pop_min xs with _ | ⟨m2, rest2⟩ <;> rw [h2] at h
    · simp only [Option.some.injEq, Prod.mk.injEq] at h
      obtain ⟨rfl, rfl⟩ := h
      exact List.Perm.refl _
    · by_cases hle : entryLEP x m2 <;> simp only [hle, if_true, if_false,
        Option.some.injEq, Prod.mk.injEq] at h
      · obtain ⟨rfl, rfl⟩ := h
        exact List.Perm.refl _
      · obtain ⟨rfl, rfl⟩ := h
        exact ((ih h2).cons x).trans (List.Perm.swap m2 x rest2)

theorem pop_min_min {l : List QueueEntry} {m : QueueEntry} {rest : List QueueEntry}
    (h : pop_min l = some (m, rest)) : ∀ y ∈ rest, entryLEP m y := by
  induction l generalizing m rest with
  | nil => simp [pop_min] at h
  | cons x xs ih =>
    rw [pop_min] at h
    rcases h2 : pop_min xs with _ | ⟨m2, rest2⟩ <;> rw [h2] at h
    · simp only [Option.some.injEq, Prod.mk.injEq] at h
      obtain ⟨rfl, rfl⟩ := h
      intro y hy
      rw [pop_min_eq_none h2] at hy
      simp at hy
    · by_cases hle : entryLEP x m2 <;> simp only [hle, if_true, if_false,
        Option.some.injEq, Prod.mk.injEq] at h
      · obtain ⟨rfl, rfl⟩ := h
        intro y hy
        rcases List.mem_cons.mp ((List.Perm.mem_iff (pop_min_perm h2)).mp hy) with rfl | hr
        · exact hle
        · exact entryLEP_trans hle (ih h2 y hr)
      · obtain ⟨rfl, rfl⟩ := h
        intro y hy
        rcases List.mem_cons.mp hy with rfl | hr
        · rcases entryLEP_total y m2 with hh | hh
          · exact absurd hh hle
          · exact hh
        · exact ih h2 y hr

theorem pop_min_length {l : List QueueEntry} {m : QueueEntry} {rest : List QueueEntry}
    (h : pop_min l = some (m, rest)) : rest.length + 1 = l.length := by
  have := (pop_min_perm h).length_eq
  simpa using this.symm

theorem drainFuel_spec (fuel : Nat) (l : List QueueEntry) (hf : l.length ≤ fuel) :
    (drainFuel fuel l).Perm l ∧ (drainFuel fuel l).Pairwise entryLEP := by
  induction fuel generalizing l with
  | zero =>
    have : l = [] := List.eq_nil_of_length_eq_zero (by omega)
    subst this
    exact ⟨List.Perm.refl _, List.Pairwise.nil⟩
  | succ fuel ih =>
    rw [drainFuel]
    rcases h : pop_min l with _ | ⟨m, rest⟩
    · rw [pop_min_eq_none h]
      exact ⟨List.Perm.refl _, List.Pairwise.nil⟩
    · have hlen : rest.length ≤ fuel := by
        have := pop_min_length h
        omega
      obtain ⟨hperm, hpair⟩ := ih rest hlen
      refine ⟨?_, ?_⟩
      · exact (hperm.cons m).trans (pop_min_perm h).symm
      · refine List.Pairwise.cons ?_ hpair
        intro y hy
        exact pop_min_min h y (hperm.mem_iff.mp hy)

theorem drain_perm (l : List QueueEntry) : (drain l).Perm l :=
  (drainFuel_spec l.length l (le_refl _)).1

theorem drain_sorted (l : List QueueEntry) : (drain l).Pairwise entryLEP :=
  (drainFuel_spec l.length l (le_refl _)).2

/-- C8: confirmed. Draining the dispatch queue returns exactly the entries it
held, ordered by the entry order: higher priority value first, then earlier
enqueue time, then lexically smaller job id; entries enqueued with
priorities low, critical, normal in that order are dequeued as critical,
normal, low. -/
theorem dispatch_order (q : List QueueEntry) :
    (drain q).Perm q
    ∧ (drain q).Pairwise entryLEP
    ∧ (∀ (p1 p2 : JobPriority) (t1 t2 : Nat) (i1 i2 : String),
        entryLEP (mkEntry p1 t1 i1) (mkEntry p2 t2 i2) ↔
          (p2.value < p1.value ∨ (p1.value = p2.value ∧ (t1 < t2 ∨ (t1 = t2 ∧ i1 ≤ i2)))))
    ∧ drain [mkEntry JobPriority.low 0 "job-a", mkEntry JobPriority.critical 1 "job-b",
        mkEntry JobPriority.normal 2 "job-c"] =
      [mkEntry JobPriority.critical 1 "job-b", mkEntry JobPriority.normal 2 "job-c",
        mkEntry JobPriority.low 0 "job-a"] := by
  refine ⟨drain_perm q, drain_sorted q, ?_, ?_⟩
  · intro p1 p2 t1 t2 i1 i2
    unfold entryLEP mkEntry
    dsimp only
    constructor
    · rintro (h | ⟨h, hrest⟩)
      · left; omega
      · right; exact ⟨by omega, hrest⟩
    · rintro (h | ⟨h, hrest⟩)
      · left; omega
      · right; exact ⟨by omega, hrest⟩
  · decide
